import Mathlib

/-!
Verification of the CRM contact service (`src/main.py`).

The service is a FastAPI application over a SQLite table `contacts`.  We
embed its state as a list of rows ordered by primary key (which coincides
with insertion order, since SQLite assigns each new rowid as
`max(existing) + 1`), and each route handler as a function from the request
data and the current time to a result together with the new store.

Timestamps are modelled as natural numbers (`datetime.utcnow()` readings);
each handler receives the current reading `now` as a parameter.

Columns `name`, `email`, `phone`, `company` are all nullable in the schema
(no `nullable=False`), hence `Option String`.  The `email` column carries a
SQL UNIQUE constraint (`Column(String, unique=True)`); a write violating it
raises an IntegrityError, surfaced as an HTTP 500 (`storageFault` below),
which is distinct from the handler-level 400 `emailConflict`.
-/

/-- A row of the `contacts` table (SQLAlchemy model `ContactDB`). -/
structure ContactDB where
  id : Nat
  name : Option String
  email : Option String
  phone : Option String
  company : Option String
  created_at : Nat
  updated_at : Nat
deriving Repr, DecidableEq

/-- The `contacts` table, rows in rowid (= primary key = insertion) order. -/
abbrev Store := List ContactDB

/-- Pydantic `ContactCreate` after shape validation: `name` and `email` are
required strings, `phone` and `company` optional. -/
structure ContactCreate where
  name : String
  email : String
  phone : Option String
  company : Option String
deriving Repr, DecidableEq

/-- Pydantic `ContactUpdate`: every field optional.  For each field, `none`
means the field was not supplied in the request body (it is excluded by
`dict(exclude_unset=True)`), while `some v` means it was explicitly supplied
with value `v` — including `some none`, an explicit JSON `null`. -/
structure ContactUpdate where
  name : Option (Option String)
  email : Option (Option String)
  phone : Option (Option String)
  company : Option (Option String)
deriving Repr, DecidableEq

/-- The error outcomes of the service: handler-raised 404 and 400, the
framework's 422 shape-validation rejection, and unhandled storage errors
(e.g. UNIQUE-constraint IntegrityError) surfaced as 500. -/
inductive ApiError where
  | notFound
  | emailConflict
  | validationError
  | storageFault
deriving Repr, DecidableEq

/-- HTTP status code for each error outcome. -/
def httpStatus : ApiError → Nat
  | .notFound => 404
  | .emailConflict => 400
  | .validationError => 422
  | .storageFault => 500

/-- The `detail` body of the handler-raised HTTPExceptions; the other
outcomes use framework-default shapes. -/
def errorDetail : ApiError → Option String
  | .notFound => some "Contact not found"
  | .emailConflict => some "Email already registered"
  | _ => none

/-- Largest primary key currently in the table (0 when empty). -/
def maxId (db : Store) : Nat := db.foldr (fun c m => max c.id m) 0

/-- SQLite rowid allocation for `INTEGER PRIMARY KEY` without AUTOINCREMENT:
one more than the largest rowid currently in use. -/
def nextId (db : Store) : Nat := maxId db + 1

/-- A raw `POST /contacts` body as seen by the shape checker: each field
either absent/null (`none`) or a string.  For the required `str` fields
`name` and `email`, pydantic rejects both a missing field and an explicit
null, so the two are conflated. -/
structure RawContactCreate where
  name : Option String
  email : Option String
  phone : Option String
  company : Option String
deriving Repr, DecidableEq

/-- Pydantic shape validation of a create body: `name` and `email` must be
present (any string, including the empty string); `phone` and `company`
default to null. -/
def validate_create (r : RawContactCreate) : Except ApiError ContactCreate :=
  match r.name, r.email with
  | some n, some e => .ok ⟨n, e, r.phone, r.company⟩
  | _, _ => .error .validationError

/-- `GET /contacts` (`get_contacts`): `db.query(ContactDB).offset(skip).limit(limit).all()`. -/
def get_contacts (skip limit : Nat) (db : Store) : List ContactDB :=
  (db.drop skip).take limit

/-- `GET /contacts/{contact_id}` (`get_contact`): first row with the given
id, or 404 "Contact not found". -/
def get_contact (cid : Nat) (db : Store) : Except ApiError ContactDB :=
  match db.find? (fun c => c.id == cid) with
  | none => .error .notFound
  | some c => .ok c

/-- `POST /contacts` (`create_contact`): reject with 400 if any row already
has the given email; otherwise insert a fresh row whose `created_at` and
`updated_at` column defaults are both the current time. -/
def create_contact (input : ContactCreate) (now : Nat) (db : Store) :
    Except ApiError ContactDB × Store :=
  if db.any (fun c => c.email == some input.email) then
    (.error .emailConflict, db)
  else
    let c : ContactDB :=
      { id := nextId db, name := some input.name, email := some input.email,
        phone := input.phone, company := input.company,
        created_at := now, updated_at := now }
    (.ok c, db ++ [c])

/-- The `setattr` loop of `update_contact`: overwrite exactly the fields
present in `contact.dict(exclude_unset=True)`. -/
def applyUpdate (c : ContactDB) (u : ContactUpdate) : ContactDB :=
  { c with
    name := u.name.getD c.name
    email := u.email.getD c.email
    phone := u.phone.getD c.phone
    company := u.company.getD c.company }

/-- The UNIQUE constraint on `email`: committing row `cid` with the given
email violates it iff the email is non-null and some other row holds it. -/
def emailConflicts (db : Store) (cid : Nat) : Option String → Bool
  | none => false
  | some e => db.any (fun r => r.id != cid && r.email == some e)

/-- `PUT /contacts/{contact_id}` (`update_contact`): 404 if the id is
absent; otherwise merge the explicitly supplied fields, set `updated_at` to
the current time, and commit.  The handler performs no email-uniqueness
check; a commit violating the UNIQUE constraint fails as a 500. -/
def update_contact (cid : Nat) (u : ContactUpdate) (now : Nat) (db : Store) :
    Except ApiError ContactDB × Store :=
  match db.find? (fun c => c.id == cid) with
  | none => (.error .notFound, db)
  | some c =>
    let merged : ContactDB := { applyUpdate c u with updated_at := now }
    if emailConflicts db cid merged.email then
      (.error .storageFault, db)
    else
      (.ok merged, db.map (fun r => if r.id == cid then merged else r))

/-- `DELETE /contacts/{contact_id}` (`delete_contact`): 404 if the id is
absent; otherwise remove the row and return the confirmation message. -/
def delete_contact (cid : Nat) (db : Store) : Except ApiError String × Store :=
  match db.find? (fun c => c.id == cid) with
  | none => (.error .notFound, db)
  | some _ =>
    (.ok ("Contact " ++ toString cid ++ " deleted successfully"),
     db.filter (fun c => c.id != cid))

/-- Characters of a string, lowercased — what SQLite's `lower()` applied by
`ilike` computes (ASCII letters only, as `Char.toLower` also behaves). -/
def lowerChars (s : String) : List Char := s.data.map Char.toLower

/-- SQL `LIKE` pattern matching: `%` matches any (possibly empty) substring,
`_` matches any single character, any other pattern character matches
itself. -/
def likeMatch : List Char → List Char → Bool
  | [], s => s.isEmpty
  | a :: p, s =>
    if a = '%' then s.tails.any (fun t => likeMatch p t)
    else
      match s with
      | [] => false
      | c :: s' => (if a = '_' then true else a == c) && likeMatch p s'

/-- `column.ilike(pattern)` as compiled for SQLite:
`lower(column) LIKE lower(pattern)`. -/
def sqlIlike (pat s : String) : Bool := likeMatch (lowerChars pat) (lowerChars s)

/-- One disjunct of the search filter: `column.ilike(f"%{query}%")`.
A NULL column never matches (SQL three-valued logic). -/
def fieldIlike (q : String) : Option String → Bool
  | none => false
  | some s => sqlIlike ("%" ++ q ++ "%") s

/-- `GET /contacts/search/{query}` (`search_contacts`): rows whose name,
email, or company matches `%query%` case-insensitively. -/
def search_contacts (q : String) (db : Store) : List ContactDB :=
  db.filter (fun c =>
    fieldIlike q c.name || fieldIlike q c.email || fieldIlike q c.company)

/-- A `PUT` body supplying no fields at all: `dict(exclude_unset=True)` is
empty. -/
def emptyUpdate : ContactUpdate := ⟨none, none, none, none⟩

/-- The email-uniqueness invariant the UNIQUE constraint maintains: no two
distinct rows hold the same non-null email. -/
def UniqueEmails (db : Store) : Prop :=
  ∀ a ∈ db, ∀ b ∈ db, a.id ≠ b.id → ∀ e : String, a.email = some e → b.email ≠ some e

/-- Primary keys strictly increase along the table; in particular each id
occurs on at most one row. -/
def IdsSorted (db : Store) : Prop := db.Pairwise (fun a b => a.id < b.id)

/-- No SQL `LIKE` wildcard occurs among the given characters. -/
def WildcardFree (l : List Char) : Prop := ∀ c ∈ l, c ≠ '%' ∧ c ≠ '_'

/-- Modelled from the spec's words (for comparison with `fieldIlike`): a
field matches when it is present and contains the query as a
case-insensitive substring. -/
def specFieldContains (q : String) : Option String → Bool
  | none => false
  | some s => decide (lowerChars q <:+: lowerChars s)

/-- Modelled from the spec's words (for comparison with `search_contacts`):
a contact matches a query when its name, email, or company contains it as a
case-insensitive substring. -/
def specMatches (q : String) (c : ContactDB) : Bool :=
  specFieldContains q c.name || specFieldContains q c.email ||
    specFieldContains q c.company

/-- A freshly created contact used in concrete counterexamples for the
search claim. -/
def c4Row : ContactDB := ⟨1, some "abc", some "a@x.com", none, none, 0, 0⟩

/-- The contact created first in the id-reuse scenario. -/
def c8RowA : ContactDB := ⟨1, some "Ann", some "a@x.com", none, none, 0, 0⟩

/-- The contact created after `c8RowA` is deleted; it receives id 1 again. -/
def c8RowB : ContactDB := ⟨1, some "Bob", some "b@x.com", none, none, 2, 2⟩

/-! ### Helper lemmas -/

theorem id_le_maxId (db : Store) (c : ContactDB) (hc : c ∈ db) : c.id ≤ maxId db := by
  induction db with
  | nil => cases hc
  | cons a l ih =>
    rcases List.mem_cons.mp hc with h | h
    · subst h; exact Nat.le_max_left _ _
    · exact Nat.le_trans (ih h) (Nat.le_max_right _ _)

/-! ### C2: duplicate-email create is rejected -/

/-- C2: when some stored contact already holds the input's email, `insert`
(POST /contacts) fails with EmailConflict — HTTP 400, detail "Email already
registered" — and the store (in particular the existing row) is unchanged. -/
theorem create_duplicate_email_conflict (input : ContactCreate) (now : Nat)
    (db : Store) (c : ContactDB) (hc : c ∈ db) (he : c.email = some input.email) :
    create_contact input now db = (.error .emailConflict, db) ∧
    httpStatus .emailConflict = 400 ∧
    errorDetail .emailConflict = some "Email already registered" := by
  refine ⟨?_, rfl, rfl⟩
  unfold create_contact
  rw [if_pos (List.any_eq_true.mpr ⟨c, hc, by simp [he]⟩)]

/-- Witness for C2 at a concrete store and input. -/
theorem create_duplicate_email_conflict_witness :
    create_contact ⟨"Bob", "a@x.com", none, none⟩ 5
        [⟨1, some "Ann", some "a@x.com", none, none, 0, 0⟩] =
      (.error .emailConflict, [⟨1, some "Ann", some "a@x.com", none, none, 0, 0⟩]) ∧
    httpStatus .emailConflict = 400 ∧
    errorDetail .emailConflict = some "Email already registered" :=
  create_duplicate_email_conflict ⟨"Bob", "a@x.com", none, none⟩ 5
    [⟨1, some "Ann", some "a@x.com", none, none, 0, 0⟩]
    ⟨1, some "Ann", some "a@x.com", none, none, 0, 0⟩ (by simp) rfl

/-! ### C6: absent ids yield NotFound and leave the store unchanged -/

/-- C6: for an id held by no stored contact, `getById`, `update`, and
`delete` each fail with NotFound — HTTP 404, detail "Contact not found" —
and the store is unchanged. -/
theorem missing_id_not_found (cid : Nat) (u : ContactUpdate) (now : Nat)
    (db : Store) (habs : ∀ c ∈ db, c.id ≠ cid) :
    get_contact cid db = .error .notFound ∧
    update_contact cid u now db = (.error .notFound, db) ∧
    delete_contact cid db = (.error .notFound, db) ∧
    httpStatus .notFound = 404 ∧
    errorDetail .notFound = some "Contact not found" := by
  have hf : db.find? (fun c => c.id == cid) = none :=
    List.find?_eq_none.mpr (fun x hx => by simpa using habs x hx)
  refine ⟨?_, ?_, ?_, rfl, rfl⟩ <;>
    simp [get_contact, update_contact, delete_contact, hf]

/-- Witness for C6 with a nonempty concrete store and an absent id. -/
theorem missing_id_not_found_witness :
    get_contact 7 [⟨1, some "Ann", some "a@x.com", none, none, 0, 0⟩] = .error .notFound ∧
    update_contact 7 emptyUpdate 9 [⟨1, some "Ann", some "a@x.com", none, none, 0, 0⟩] =
      (.error .notFound, [⟨1, some "Ann", some "a@x.com", none, none, 0, 0⟩]) ∧
    delete_contact 7 [⟨1, some "Ann", some "a@x.com", none, none, 0, 0⟩] =
      (.error .notFound, [⟨1, some "Ann", some "a@x.com", none, none, 0, 0⟩]) ∧
    httpStatus .notFound = 404 ∧
    errorDetail .notFound = some "Contact not found" :=
  missing_id_not_found 7 emptyUpdate 9
    [⟨1, some "Ann", some "a@x.com", none, none, 0, 0⟩] (by decide)

/-! ### C7: update never produces the EmailConflict outcome -/

/-- C7: `update` (PUT /contacts/{id}) performs no email-uniqueness re-check:
whatever the store, the target id, the supplied fields (including an email
belonging to a different existing contact), and the time, its outcome is
never EmailConflict (HTTP 400 "Email already registered"), unlike create.
(A duplicate email instead trips the storage UNIQUE constraint, surfacing
as a 500 `storageFault`.) -/
theorem update_never_email_conflict (cid : Nat) (u : ContactUpdate) (now : Nat)
    (db : Store) :
    (update_contact cid u now db).1 ≠ .error .emailConflict := by
  unfold update_contact
  cases hf : db.find? (fun c => c.id == cid) with
  | none => simp
  | some c =>
    dsimp only
    split <;> simp

/-! ### C5: pagination of the contact list -/

/-- C5: `list(skip, limit)` (GET /contacts) returns a selection of the
stored contacts in store (primary-key) order: it is a sublist of the store,
still sorted by id, of length at most `limit`, whose `i`-th element is the
store's `(skip+i)`-th element; and when `skip` reaches or exceeds the store
size the result is empty rather than an error. -/
theorem list_pagination (skip limit : Nat) (db : Store)
    (hsorted : IdsSorted db) :
    (get_contacts skip limit db).Sublist db ∧
    (get_contacts skip limit db).length ≤ limit ∧
    IdsSorted (get_contacts skip limit db) ∧
    (db.length ≤ skip → get_contacts skip limit db = []) ∧
    (∀ i (hi : i < (get_contacts skip limit db).length),
      ∃ hj : skip + i < db.length,
        (get_contacts skip limit db).get ⟨i, hi⟩ = db.get ⟨skip + i, hj⟩) := by
  have hsub : (get_contacts skip limit db).Sublist db :=
    ((db.drop skip).take_sublist limit).trans (db.drop_sublist skip)
  refine ⟨hsub, ?_, hsorted.sublist hsub, ?_, ?_⟩
  · simp only [get_contacts, List.length_take]
    exact Nat.min_le_left _ _
  · intro h
    simp [get_contacts, List.drop_eq_nil_of_le h]
  · intro i hi
    have hi' : i < (db.drop skip).length := by
      have := hi
      simp only [get_contacts, List.length_take, Nat.lt_min] at this
      exact this.2
    have hj : skip + i < db.length := by
      have := hi'
      simp only [List.length_drop] at this
      omega
    refine ⟨hj, ?_⟩
    simp [get_contacts, List.get_eq_getElem, List.getElem_take, List.getElem_drop]

/-- Witness for C5 on a concrete sorted store. -/
theorem list_pagination_witness :
    (get_contacts 1 1 [⟨1, some "Ann", some "a@x.com", none, none, 0, 0⟩,
        ⟨2, some "Bob", some "b@x.com", none, none, 0, 0⟩,
        ⟨3, some "Cyd", some "c@x.com", none, none, 0, 0⟩]).Sublist
      [⟨1, some "Ann", some "a@x.com", none, none, 0, 0⟩,
        ⟨2, some "Bob", some "b@x.com", none, none, 0, 0⟩,
        ⟨3, some "Cyd", some "c@x.com", none, none, 0, 0⟩] ∧
    (get_contacts 1 1 [⟨1, some "Ann", some "a@x.com", none, none, 0, 0⟩,
        ⟨2, some "Bob", some "b@x.com", none, none, 0, 0⟩,
        ⟨3, some "Cyd", some "c@x.com", none, none, 0, 0⟩]).length ≤ 1 ∧
    IdsSorted (get_contacts 1 1 [⟨1, some "Ann", some "a@x.com", none, none, 0, 0⟩,
        ⟨2, some "Bob", some "b@x.com", none, none, 0, 0⟩,
        ⟨3, some "Cyd", some "c@x.com", none, none, 0, 0⟩]) ∧
    (([⟨1, some "Ann", some "a@x.com", none, none, 0, 0⟩,
        ⟨2, some "Bob", some "b@x.com", none, none, 0, 0⟩,
        ⟨3, some "Cyd", some "c@x.com", none, none, 0, 0⟩] : Store).length ≤ 1 →
      get_contacts 1 1 [⟨1, some "Ann", some "a@x.com", none, none, 0, 0⟩,
        ⟨2, some "Bob", some "b@x.com", none, none, 0, 0⟩,
        ⟨3, some "Cyd", some "c@x.com", none, none, 0, 0⟩] = []) := by
  have h := list_pagination 1 1
    [⟨1, some "Ann", some "a@x.com", none, none, 0, 0⟩,
      ⟨2, some "Bob", some "b@x.com", none, none, 0, 0⟩,
      ⟨3, some "Cyd", some "c@x.com", none, none, 0, 0⟩]
    (by unfold IdsSorted; decide)
  exact ⟨h.1, h.2.1, h.2.2.1, h.2.2.2.1⟩

/-! ### C1: create followed by getById round-trips -/

/-- C1: for a valid CreateInput whose email no stored contact holds,
`insert` (POST /contacts) succeeds, appends a row whose name, email, phone,
and company equal the input fields, whose `created_at` and `updated_at` are
both the creation time (hence equal), and whose id no previously stored
contact held; `getById` on that id then returns exactly this row. -/
theorem create_then_get (input : ContactCreate) (now : Nat) (db : Store)
    (hfresh : ∀ r ∈ db, r.email ≠ some input.email) :
    ∃ c : ContactDB,
      create_contact input now db = (.ok c, db ++ [c]) ∧
      c.name = some input.name ∧ c.email = some input.email ∧
      c.phone = input.phone ∧ c.company = input.company ∧
      c.created_at = now ∧ c.updated_at = now ∧ c.created_at = c.updated_at ∧
      (∀ r ∈ db, r.id ≠ c.id) ∧
      get_contact c.id (db ++ [c]) = .ok c := by
  have hany : db.any (fun r => r.email == some input.email) = false := by
    rw [List.any_eq_false]
    intro x hx
    simp [hfresh x hx]
  refine ⟨{ id := nextId db, name := some input.name, email := some input.email,
            phone := input.phone, company := input.company,
            created_at := now, updated_at := now },
          ?_, rfl, rfl, rfl, rfl, rfl, rfl, rfl, ?_, ?_⟩
  · unfold create_contact
    rw [if_neg (by simp [hany])]
  · intro r hr
    have := id_le_maxId db r hr
    simp only [nextId]
    omega
  · have hnone : db.find? (fun r => r.id == nextId db) = none := by
      rw [List.find?_eq_none]
      intro x hx
      have := id_le_maxId db x hx
      simp only [nextId, beq_iff_eq]
      omega
    unfold get_contact
    rw [List.find?_append, hnone]
    simp

/-- Witness for C1 on a concrete store whose only email differs from the
input's. -/
theorem create_then_get_witness :
    ∃ c : ContactDB,
      create_contact ⟨"Bob", "b@x.com", some "123", some "Acme"⟩ 4
          [⟨1, some "Ann", some "a@x.com", none, none, 0, 0⟩] =
        (.ok c, [⟨1, some "Ann", some "a@x.com", none, none, 0, 0⟩] ++ [c]) ∧
      c.name = some "Bob" ∧ c.email = some "b@x.com" ∧
      c.phone = some "123" ∧ c.company = some "Acme" ∧
      c.created_at = 4 ∧ c.updated_at = 4 ∧ c.created_at = c.updated_at ∧
      (∀ r ∈ [(⟨1, some "Ann", some "a@x.com", none, none, 0, 0⟩ : ContactDB)],
        r.id ≠ c.id) ∧
      get_contact c.id ([⟨1, some "Ann", some "a@x.com", none, none, 0, 0⟩] ++ [c]) =
        .ok c :=
  create_then_get ⟨"Bob", "b@x.com", some "123", some "Acme"⟩ 4
    [⟨1, some "Ann", some "a@x.com", none, none, 0, 0⟩] (by decide)

/-! ### C3: the empty update changes only updated_at -/

/-- C3: updating a stored contact with an empty field set (PUT body `{}`)
succeeds and returns the row with name, email, phone, company, created_at,
and id untouched and only `updated_at` replaced by the current time; since
the clock has advanced past the stored `updated_at`, the new `updated_at`
is strictly larger.  All other rows remain in the store, and the updated
row is stored. -/
theorem empty_update_frame (cid : Nat) (now : Nat) (db : Store) (c : ContactDB)
    (hfind : db.find? (fun r => r.id == cid) = some c)
    (huniq : UniqueEmails db) (hclock : c.updated_at < now) :
    (update_contact cid emptyUpdate now db).1 = .ok { c with updated_at := now } ∧
    c.updated_at < ({ c with updated_at := now } : ContactDB).updated_at ∧
    (∀ r ∈ db, r.id ≠ cid → r ∈ (update_contact cid emptyUpdate now db).2) ∧
    { c with updated_at := now } ∈ (update_contact cid emptyUpdate now db).2 := by
  have hcid : c.id = cid := by simpa using List.find?_some hfind
  have hcmem : c ∈ db := List.mem_of_find?_eq_some hfind
  have happly : applyUpdate c emptyUpdate = c := rfl
  have hconf : emailConflicts db cid c.email = false := by
    cases hce : c.email with
    | none => rfl
    | some e =>
      rw [emailConflicts, List.any_eq_false]
      intro r hr
      by_cases hid : r.id = cid
      · simp [hid]
      · have : r.email ≠ some e := huniq c hcmem r hr (by omega) e hce
        simp [this]
  have hrun : update_contact cid emptyUpdate now db =
      (.ok { c with updated_at := now },
        db.map (fun r => if r.id == cid then { c with updated_at := now } else r)) := by
    unfold update_contact
    rw [hfind]
    simp only [happly]
    rw [if_neg (by simp [hconf])]
  refine ⟨by rw [hrun], hclock, ?_, ?_⟩
  · intro r hr hne
    rw [hrun]
    exact List.mem_map.mpr ⟨r, hr, by simp [hne]⟩
  · rw [hrun]
    exact List.mem_map.mpr ⟨c, hcmem, by simp [hcid]⟩

/-- Witness for C3 on a concrete store. -/
theorem empty_update_frame_witness :
    (update_contact 1 emptyUpdate 9
        [⟨1, some "Ann", some "a@x.com", none, none, 0, 0⟩]).1 =
      .ok { (⟨1, some "Ann", some "a@x.com", none, none, 0, 0⟩ : ContactDB) with
              updated_at := 9 } ∧
    (⟨1, some "Ann", some "a@x.com", none, none, 0, 0⟩ : ContactDB).updated_at <
      ({ (⟨1, some "Ann", some "a@x.com", none, none, 0, 0⟩ : ContactDB) with
          updated_at := 9 } : ContactDB).updated_at ∧
    (∀ r ∈ [(⟨1, some "Ann", some "a@x.com", none, none, 0, 0⟩ : ContactDB)],
      r.id ≠ 1 → r ∈ (update_contact 1 emptyUpdate 9
        [⟨1, some "Ann", some "a@x.com", none, none, 0, 0⟩]).2) ∧
    { (⟨1, some "Ann", some "a@x.com", none, none, 0, 0⟩ : ContactDB) with
        updated_at := 9 } ∈
      (update_contact 1 emptyUpdate 9
        [⟨1, some "Ann", some "a@x.com", none, none, 0, 0⟩]).2 :=
  empty_update_frame 1 9 [⟨1, some "Ann", some "a@x.com", none, none, 0, 0⟩]
    ⟨1, some "Ann", some "a@x.com", none, none, 0, 0⟩ (by decide)
    (by intro a ha b hb hab e hae; simp at ha hb; subst ha; subst hb; omega)
    (by decide)

/-! ### C10: explicit nulls in a PUT body are applied -/

/-- C10: updating a stored contact with a body that explicitly supplies
`null` for name and email succeeds (no required-field re-validation) and
stores the row with name and email NULL; phone and company, being unset in
the body, are untouched. -/
theorem explicit_null_update (cid : Nat) (now : Nat) (db : Store) (c : ContactDB)
    (hfind : db.find? (fun r => r.id == cid) = some c) :
    (update_contact cid ⟨some none, some none, none, none⟩ now db).1 =
      .ok { c with name := none, email := none, updated_at := now } ∧
    { c with name := none, email := none, updated_at := now } ∈
      (update_contact cid ⟨some none, some none, none, none⟩ now db).2 := by
  have hcid : c.id = cid := by simpa using List.find?_some hfind
  have hcmem : c ∈ db := List.mem_of_find?_eq_some hfind
  have happly : applyUpdate c ⟨some none, some none, none, none⟩ =
      { c with name := none, email := none } := rfl
  have hrun : update_contact cid ⟨some none, some none, none, none⟩ now db =
      (.ok { c with name := none, email := none, updated_at := now },
        db.map (fun r => if r.id == cid then
          { c with name := none, email := none, updated_at := now } else r)) := by
    unfold update_contact
    rw [hfind]
    simp only [happly]
    rw [if_neg (by simp [emailConflicts])]
  refine ⟨by rw [hrun], ?_⟩
  rw [hrun]
  exact List.mem_map.mpr ⟨c, hcmem, by simp [hcid]⟩

/-- Witness for C10 on a concrete store. -/
theorem explicit_null_update_witness :
    (update_contact 1 ⟨some none, some none, none, none⟩ 9
        [⟨1, some "Ann", some "a@x.com", some "123", some "Acme", 0, 0⟩]).1 =
      .ok { (⟨1, some "Ann", some "a@x.com", some "123", some "Acme", 0, 0⟩ : ContactDB) with
              name := none, email := none, updated_at := 9 } ∧
    { (⟨1, some "Ann", some "a@x.com", some "123", some "Acme", 0, 0⟩ : ContactDB) with
        name := none, email := none, updated_at := 9 } ∈
      (update_contact 1 ⟨some none, some none, none, none⟩ 9
        [⟨1, some "Ann", some "a@x.com", some "123", some "Acme", 0, 0⟩]).2 :=
  explicit_null_update 1 9
    [⟨1, some "Ann", some "a@x.com", some "123", some "Acme", 0, 0⟩]
    ⟨1, some "Ann", some "a@x.com", some "123", some "Acme", 0, 0⟩ (by decide)

/-! ### LIKE-matcher lemmas (for C4) -/

theorem likeMatch_pct (p : List Char) (s : List Char) :
    likeMatch ('%' :: p) s = s.tails.any (fun t => likeMatch p t) := by
  simp [likeMatch]

theorem likeMatch_pct_iff (p : List Char) (s : List Char) :
    likeMatch ('%' :: p) s = true ↔ ∃ t, t <:+ s ∧ likeMatch p t = true := by
  rw [likeMatch_pct, List.any_eq_true]
  constructor
  · rintro ⟨t, ht, hm⟩
    exact ⟨t, (List.mem_tails t s).mp ht, hm⟩
  · rintro ⟨t, ht, hm⟩
    exact ⟨t, (List.mem_tails t s).mpr ht, hm⟩

theorem likeMatch_single_pct (s : List Char) : likeMatch ['%'] s = true := by
  rw [likeMatch_pct, List.any_eq_true]
  exact ⟨[], (List.mem_tails [] s).mpr List.nil_suffix, rfl⟩

theorem likeMatch_cons_nil (a : Char) (p : List Char) (ha : a ≠ '%') :
    likeMatch (a :: p) [] = false := by
  simp [likeMatch, ha]

theorem likeMatch_cons_cons (a : Char) (p : List Char) (c : Char) (s : List Char)
    (ha : a ≠ '%') (ha' : a ≠ '_') :
    likeMatch (a :: p) (c :: s) = (a == c && likeMatch p s) := by
  simp [likeMatch, ha, ha']

theorem likeMatch_lit_pct (p : List Char) (hp : WildcardFree p) (s : List Char) :
    likeMatch (p ++ ['%']) s = true ↔ p <+: s := by
  induction p generalizing s with
  | nil => simpa using likeMatch_single_pct s
  | cons a p ih =>
    obtain ⟨ha, ha'⟩ := hp a (List.mem_cons_self a p)
    have hp' : WildcardFree p := fun c hc => hp c (List.mem_cons_of_mem a hc)
    cases s with
    | nil =>
      rw [List.cons_append, likeMatch_cons_nil a _ ha]
      simp
    | cons c s' =>
      rw [List.cons_append, likeMatch_cons_cons a _ c s' ha ha',
        Bool.and_eq_true, beq_iff_eq, ih hp', List.cons_prefix_cons]

theorem likeMatch_pct_wrap (p : List Char) (hp : WildcardFree p) (s : List Char) :
    likeMatch ('%' :: (p ++ ['%'])) s = true ↔ p <:+: s := by
  rw [likeMatch_pct_iff]
  constructor
  · rintro ⟨t, hts, hm⟩
    exact List.infix_iff_prefix_suffix.mpr ⟨t, (likeMatch_lit_pct p hp t).mp hm, hts⟩
  · intro h
    obtain ⟨t, hpt, hts⟩ := List.infix_iff_prefix_suffix.mp h
    exact ⟨t, hts, (likeMatch_lit_pct p hp t).mpr hpt⟩

theorem lowerChars_pattern (q : String) :
    lowerChars ("%" ++ q ++ "%") = '%' :: (lowerChars q ++ ['%']) := by
  have h : Char.toLower '%' = '%' := by decide
  simp [lowerChars, h]

theorem fieldIlike_eq_spec (q : String) (hq : WildcardFree (lowerChars q))
    (f : Option String) : fieldIlike q f = specFieldContains q f := by
  cases f with
  | none => rfl
  | some s =>
    show sqlIlike ("%" ++ q ++ "%") s = decide (lowerChars q <:+: lowerChars s)
    rw [sqlIlike, lowerChars_pattern]
    by_cases h : lowerChars q <:+: lowerChars s
    · rw [(likeMatch_pct_wrap (lowerChars q) hq (lowerChars s)).mpr h]
      simp [h]
    · rw [decide_eq_false h]
      rw [← Bool.not_eq_true]
      intro hm
      exact h ((likeMatch_pct_wrap (lowerChars q) hq (lowerChars s)).mp hm)

theorem fieldIlike_empty_query (f : Option String) :
    fieldIlike "" f = f.isSome := by
  cases f with
  | none => rfl
  | some s =>
    show sqlIlike ("%" ++ "" ++ "%") s = true
    rw [sqlIlike, lowerChars_pattern]
    rw [likeMatch_pct_iff]
    exact ⟨lowerChars s, List.suffix_refl _,
      by simpa using likeMatch_single_pct (lowerChars s)⟩

/-! ### C4: search as case-insensitive substring match -/

/-- C4 (amended): for a query containing no SQL LIKE wildcard (`%` or `_`),
`search(q)` (GET /contacts/search/{query}) returns exactly the stored
contacts having at least one of name, email, company non-NULL that contains
`q` as a case-insensitive substring; and the empty query returns exactly
the stored contacts having at least one of name, email, company non-NULL
(NULL fields never match, and wildcard characters in a query are
interpreted by LIKE, not literally). -/
theorem search_substring_spec (q : String) (db : Store)
    (hq : WildcardFree (lowerChars q)) :
    search_contacts q db = db.filter (fun c => specMatches q c) ∧
    search_contacts "" db =
      db.filter (fun c => c.name.isSome || c.email.isSome || c.company.isSome) := by
  constructor
  · apply List.filter_congr
    intro c _
    simp only [fieldIlike_eq_spec q hq, specMatches]
  · apply List.filter_congr
    intro c _
    simp only [fieldIlike_empty_query]

/-- Witness for C4's amended statement at a concrete query and store. -/
theorem search_substring_spec_witness :
    search_contacts "ann" [c4Row] = [c4Row].filter (fun c => specMatches "ann" c) ∧
    search_contacts "" [c4Row] =
      [c4Row].filter (fun c => c.name.isSome || c.email.isSome || c.company.isSome) :=
  search_substring_spec "ann" [c4Row] (by unfold WildcardFree; decide)

/-- Counterexample to C4 as stated: on a store holding the single contact
`c4Row` (name "abc", email "a@x.com", no company), the query "a_c" — a
legitimate URL path segment — is returned a match by the code (the `_`
acts as a LIKE wildcard against "abc"), yet no field of the contact
contains "a_c" as a case-insensitive substring. -/
theorem search_substring_cex :
    search_contacts "a_c" [c4Row] = [c4Row] ∧ specMatches "a_c" c4Row = false := by
  constructor
  · decide
  · decide

/-! ### C8: one contact per id, but ids can be reused -/

/-- C8 (amended): across create and delete operations there is at most one
stored contact per id — ids strictly increase along the store, a successful
create assigns an id held by no currently stored contact, and delete
preserves the ordering — but an id CAN be reassigned after every contact
with an id at least as large has been deleted, because SQLite allocates
each new id as one more than the largest id currently in use. -/
theorem id_uniqueness_invariant (db : Store) (input : ContactCreate) (now : Nat)
    (cid : Nat) (hs : IdsSorted db) :
    (∀ c dbp, create_contact input now db = (.ok c, dbp) →
      IdsSorted dbp ∧ ∀ r ∈ db, r.id ≠ c.id) ∧
    IdsSorted (delete_contact cid db).2 := by
  constructor
  · intro c dbp hrun
    unfold create_contact at hrun
    by_cases hdup : db.any (fun r => r.email == some input.email)
    · rw [if_pos hdup] at hrun
      simp at hrun
    · rw [if_neg hdup] at hrun
      simp only [Prod.mk.injEq, Except.ok.injEq] at hrun
      obtain ⟨hc, hdb⟩ := hrun
      subst hc
      subst hdb
      have hlt : ∀ r ∈ db, r.id < nextId db := by
        intro r hr
        have := id_le_maxId db r hr
        simp only [nextId]
        omega
      constructor
      · rw [IdsSorted, List.pairwise_append]
        refine ⟨hs, List.pairwise_singleton _ _, ?_⟩
        intro a ha b hb
        rw [List.mem_singleton] at hb
        subst hb
        exact hlt a ha
      · intro r hr
        exact Nat.ne_of_lt (hlt r hr)
  · unfold delete_contact
    cases hf : db.find? (fun c => c.id == cid) with
    | none => exact hs
    | some c => exact hs.sublist (List.filter_sublist db)

/-- Witness for C8's amended statement on a concrete sorted store. -/
theorem id_uniqueness_invariant_witness :
    (∀ c dbp, create_contact ⟨"Bob", "b@x.com", none, none⟩ 3
        [⟨1, some "Ann", some "a@x.com", none, none, 0, 0⟩] = (.ok c, dbp) →
      IdsSorted dbp ∧
      ∀ r ∈ [(⟨1, some "Ann", some "a@x.com", none, none, 0, 0⟩ : ContactDB)],
        r.id ≠ c.id) ∧
    IdsSorted (delete_contact 1
      [⟨1, some "Ann", some "a@x.com", none, none, 0, 0⟩]).2 :=
  id_uniqueness_invariant [⟨1, some "Ann", some "a@x.com", none, none, 0, 0⟩]
    ⟨"Bob", "b@x.com", none, none⟩ 3 1 (by unfold IdsSorted; decide)

/-- Counterexample to C8 as stated: create a contact (it gets id 1), delete
it, create another — the new contact is assigned id 1 again, so an id of a
deleted contact is reused. -/
theorem id_reuse_cex :
    (create_contact ⟨"Ann", "a@x.com", none, none⟩ 0 []).1 = .ok c8RowA ∧
    delete_contact 1 (create_contact ⟨"Ann", "a@x.com", none, none⟩ 0 []).2 =
      (.ok "Contact 1 deleted successfully", []) ∧
    (create_contact ⟨"Bob", "b@x.com", none, none⟩ 2
        (delete_contact 1 (create_contact ⟨"Ann", "a@x.com", none, none⟩ 0 []).2).2).1 =
      .ok c8RowB ∧
    c8RowB.id = c8RowA.id :=
  ⟨rfl, rfl, rfl, rfl⟩

/-! ### C9: shape validation of the create body -/

/-- C9 (amended): pydantic shape validation rejects a create body whose
`name` (or `email`) is missing or null with a ValidationError (HTTP 422)
before the handler runs, but any supplied string — including the empty
string — is accepted as a name: `name` is required, yet not required to be
non-empty. -/
theorem validate_create_shape (n e : String) (p co : Option String)
    (r : RawContactCreate) (hr : r.name = none ∨ r.email = none) :
    validate_create ⟨some n, some e, p, co⟩ = .ok ⟨n, e, p, co⟩ ∧
    validate_create r = .error .validationError ∧
    httpStatus .validationError = 422 := by
  refine ⟨rfl, ?_, rfl⟩
  obtain ⟨rn, re, rp, rc⟩ := r
  rcases hr with h | h
  · cases rn with
    | none => rfl
    | some x => exact absurd h (by simp)
  · cases rn with
    | none => rfl
    | some x =>
      cases re with
      | none => rfl
      | some y => exact absurd h (by simp)

/-- Witness for C9's amended statement at concrete bodies. -/
theorem validate_create_shape_witness :
    validate_create ⟨some "", some "a@x.com", none, none⟩ =
      .ok ⟨"", "a@x.com", none, none⟩ ∧
    validate_create ⟨none, some "a@x.com", none, none⟩ = .error .validationError ∧
    httpStatus .validationError = 422 :=
  validate_create_shape "" "a@x.com" none none
    ⟨none, some "a@x.com", none, none⟩ (Or.inl rfl)

/-- Counterexample to C9 as stated: a CreateInput with an empty-string name
is NOT rejected by the input-shape check — it validates successfully and
the handler then stores a contact with the empty name. -/
theorem empty_name_accepted_cex :
    validate_create ⟨some "", some "a@x.com", none, none⟩ =
      .ok ⟨"", "a@x.com", none, none⟩ ∧
    (create_contact ⟨"", "a@x.com", none, none⟩ 0 []).1 =
      .ok ⟨1, some "", some "a@x.com", none, none, 0, 0⟩ :=
  ⟨rfl, rfl⟩
